import Mathlib

/-!
Verification development for the `evolutionary` repository (NSGA-II style
multi-objective evolution of quadrotor controllers).

The development shallowly embeds the two source files:

* `main.py` — the generational driver `main(config, ...)`: network/scenario
  dispatch, population initialization, per-generation evaluation, padding of
  the non-Pareto individuals to a multiple of four, DCD tournament, offspring
  construction by clone-and-mutate, re-evaluation, hall-of-fame (archive)
  update, NSGA-II survivor selection, and the per-generation logbook record.
* `evolutionary/utils/utils.py` — `randomize_env` and `getset_env`.

External collaborators (DEAP's `sortNondominated`, `selTournamentDCD`,
`selNSGA2`, the mutation operator, the evaluator, numpy's statistics) are not
repository source; they enter the model as parameters of an `Ext` record, and
theorems that need one of their contracts take that contract as an explicit
hypothesis stated from the specification.  Randomness is determinized by
threading explicit entropy streams; `random.sample` (sampling WITHOUT
replacement, raising when asked for more elements than the population holds)
is embedded executably as `pySample`.
-/

namespace Evolutionary

/-- An individual: an opaque numeric genome plus a fitness vector
(`[]` while unset).  Mirrors DEAP's `creator.Individual` as used in
`main.py` (a one-network list with a 3-objective fitness). -/
structure Ind where
  genome : Int
  fitness : List Rat
  deriving DecidableEq, Repr

/-- Observable events of one run of the driver, tagged with the generation
in which they occur: one `eval g` per fitness assignment (one `evaluate`
call zipped back), one `mut g` per `toolbox.mutate` call, one `arch g` per
hall-of-fame (`hof.update`) call, and `cross g` for a crossover application
(never emitted: `main.py` registers `toolbox.mate` but never calls it). -/
inductive Ev where
  | eval (gen : Nat)
  | mut (gen : Nat)
  | arch (gen : Nat)
  | cross (gen : Nat)
  deriving DecidableEq, Repr

/-- One logbook record, exactly the fields recorded by
`logbook.record(gen=..., evals=..., **record)` in `main.py`, where
`record = stats.compile(population)` holds the per-objective
`avg`, `std`, `min`, `max`, `median` vectors. -/
structure GenRecord where
  gen : Nat
  evals : Nat
  avg : List Rat
  std : List Rat
  min : List Rat
  max : List Rat
  median : List Rat
  deriving DecidableEq, Repr

/-- The five per-objective aggregators registered on `tools.Statistics`
(numpy's `mean`, `std`, `min`, `max`, `median` with `axis=0`, rounded for the
logbook).  They are external numerical code, kept abstract. -/
structure Aggs where
  avgF : List Rat → Rat
  stdF : List Rat → Rat
  minF : List Rat → Rat
  maxF : List Rat → Rat
  medF : List Rat → Rat

/-- External collaborators of the driver, determinized.
`fronts` is DEAP `tools.sortNondominated`, `tournDCD` is
`tools.selTournamentDCD`, `nsga2` is `tools.selNSGA2`, `mutateG` is the
genome part of `mutate_call_network`, `initG` the fresh-network factory,
`evalG gen slot genome` the evaluator under the fresh disturbance draw of
generation `gen` at call slot `slot`, and `rng gen` the entropy stream that
`random.sample` consumes in generation `gen`. -/
structure Ext where
  initG : Nat → Int
  fronts : List Ind → List (List Ind)
  tournDCD : List Ind → Nat → List Ind
  nsga2 : List Ind → Nat → List Ind
  mutateG : Int → Int
  evalG : Nat → Nat → Int → List Rat
  rng : Nat → Nat → Nat
  aggs : Aggs

/-- Python `random.sample(l, k)`: draw `k` elements of `l` WITHOUT
replacement (k distinct positions); raises `ValueError` — here `none` —
exactly when `k` exceeds `l.length`.  The entropy stream `r` supplies one
natural number per draw. -/
def pySample : List α → Nat → (Nat → Nat) → Option (List α)
  | _, 0, _ => some []
  | [], _ + 1, _ => none
  | x :: xs, k + 1, r =>
    match pySample ((x :: xs).eraseIdx (r 0 % (x :: xs).length)) k
        (fun t => r (t + 1)) with
    | none => none
    | some rest => some ((x :: xs).getD (r 0 % (x :: xs).length) x :: rest)

/-- Lines 171–172 of `main.py`:
`if len(others) % 4: others.extend(random.sample(selection, 4 - (len(others) % 4)))`.
Returns `none` when `random.sample` raises. -/
def padOthers (others selection : List Ind) (r : Nat → Nat) :
    Option (List Ind) :=
  if others.length % 4 ≠ 0 then
    (pySample selection (4 - others.length % 4) r).map
      (fun extra => others ++ extra)
  else
    some others

/-- `fitnesses = toolbox.map(toolbox.evaluate, l)` zipped back in order:
the individual at offset `i` gets the fitness of evaluation call
`base + i` of generation `gen`. -/
def evalPop (ext : Ext) (gen : Nat) : Nat → List Ind → List Ind
  | _, [] => []
  | base, ind :: rest =>
    { ind with fitness := ext.evalG gen base ind.genome } ::
      evalPop ext gen (base + 1) rest

/-- `toolbox.clone(ind)`: a deep value copy of the individual. -/
def cloneInd (ind : Ind) : Ind := ind

/-- `toolbox.mutate(ind)`: `mutate_call_network` perturbs the network
(genome); it does not touch the (stale) fitness. -/
def mutateInd (ext : Ext) (ind : Ind) : Ind :=
  { ind with genome := ext.mutateG ind.genome }

/-- `offspring = [toolbox.mutate(toolbox.clone(ind)) for ind in selection[:len(population)]]`
(lines 184–186 of `main.py`), with `popLen = len(population)`. -/
def buildOffspring (ext : Ext) (popLen : Nat) (selection : List Ind) :
    List Ind :=
  (selection.take popLen).map (fun ind => mutateInd ext (cloneInd ind))

/-- Lines 158–180 of `main.py`: front decomposition, `selection :=
pareto_fronts[0]`, `others := chain(*pareto_fronts[1:])`, padding of
`others` to a multiple of four, and extension of `selection` by the DCD
tournament over the padded `others`.  `none` models the `IndexError` on an
empty front list and the `ValueError` out of `random.sample`. -/
def evolveParts (ext : Ext) (gen : Nat) (population : List Ind) :
    Option (List Ind) :=
  match ext.fronts population with
  | [] => none
  | f0 :: rest =>
    match padOthers rest.flatten f0 (ext.rng gen) with
    | none => none
    | some others => some (f0 ++ ext.tournDCD others others.length)

/-- `record = stats.compile(population)`: the three per-objective columns of
the population's fitness matrix (`axis=0`). -/
def objCols (pop : List Ind) : List (List Rat) :=
  (List.range 3).map (fun k => pop.map (fun ind => ind.fitness.getD k 0))

/-- The logbook record of one generation, as built by `stats.compile`
followed by `logbook.record(gen=..., evals=..., **record)`. -/
def compileStats (ag : Aggs) (gen evals : Nat) (pop : List Ind) :
    GenRecord :=
  { gen := gen
    evals := evals
    avg := (objCols pop).map ag.avgF
    std := (objCols pop).map ag.stdF
    min := (objCols pop).map ag.minF
    max := (objCols pop).map ag.maxF
    median := (objCols pop).map ag.medF }

/-- `population = toolbox.select(population + offspring, config["pop size"])`
(line 206 of `main.py`): NSGA-II survivor selection over the re-evaluated
population plus the evaluated offspring. -/
def stepNewPop (ext : Ext) (popSize gen : Nat) (pop sel : List Ind) :
    List Ind :=
  ext.nsga2
    (evalPop ext gen 0 pop ++
      evalPop ext gen pop.length (buildOffspring ext pop.length sel))
    popSize

/-- The event trace of one loop iteration, in execution order: the
mutations building the offspring (lines 184–186), then the re-evaluation
of the whole population (lines 189–191) followed by the evaluation of the
whole offspring (lines 194–197), then the hall-of-fame update
(line 202). -/
def stepTrace (ext : Ext) (gen : Nat) (pop sel : List Ind) : List Ev :=
  List.replicate (buildOffspring ext pop.length sel).length (Ev.mut gen) ++
    List.replicate
      (pop.length + (buildOffspring ext pop.length sel).length)
      (Ev.eval gen) ++
    [Ev.arch gen]

/-- The logbook record of one loop iteration (lines 209–214):
`evals = len(offspring) + len(population)`, where `population` is the
freshly selected next population. -/
def stepRec (ext : Ext) (popSize gen : Nat) (pop sel : List Ind) :
    GenRecord :=
  compileStats ext.aggs gen
    ((evalPop ext gen pop.length (buildOffspring ext pop.length sel)).length +
      (stepNewPop ext popSize gen pop sel).length)
    (stepNewPop ext popSize gen pop sel)

/-- One iteration of the `for gen in range(1, config["gens"])` loop of
`main.py` (lines 158–214), in source order: front decomposition, padding,
tournament (`evolveParts`), offspring by clone-and-mutate, re-evaluation
of the whole population, evaluation of the whole offspring, hall-of-fame
update, NSGA-II survivor selection, logbook record.  Returns the next
population, the generation's event trace in execution order, and the
generation's logbook record. -/
def evolveStep (ext : Ext) (popSize gen : Nat) (population : List Ind) :
    Option (List Ind × List Ev × GenRecord) :=
  match evolveParts ext gen population with
  | none => none
  | some selection =>
    some (stepNewPop ext popSize gen population selection,
      stepTrace ext gen population selection,
      stepRec ext popSize gen population selection)

/-- Lines 109–135 of `main.py` (generation 0): build `pop size` fresh
individuals, evaluate them all, run `toolbox.select(population,
len(population))` purely to assign crowding distances, record the logbook
entry with `evals = len(population)`, then `hof.update(population)`. -/
def initialGen (ext : Ext) (popSize : Nat) :
    List Ind × List Ev × GenRecord :=
  let population :=
    (List.range popSize).map
      (fun i => { genome := ext.initG i, fitness := ([] : List Rat) })
  let popEval := evalPop ext 0 0 population
  let selected := ext.nsga2 popEval popEval.length
  (selected,
   List.replicate popEval.length (Ev.eval 0) ++ [Ev.arch 0],
   compileStats ext.aggs 0 selected.length selected)

/-- The evolve loop from generation `gen` for `n` more iterations,
accumulating event traces and logbook records in order. -/
def runFrom (ext : Ext) (popSize : Nat) :
    Nat → Nat → List Ind → Option (List Ind × List Ev × List GenRecord)
  | 0, _, pop => some (pop, [], [])
  | n + 1, gen, pop =>
    match evolveStep ext popSize gen pop with
    | none => none
    | some res =>
      match runFrom ext popSize n (gen + 1) res.1 with
      | none => none
      | some rest => some (rest.1, res.2.1 ++ rest.2.1, res.2.2 :: rest.2.2)

/-- The whole driver `main`: generation 0, then the loop
`for gen in range(1, gens)`. -/
def runDriver (ext : Ext) (popSize gens : Nat) :
    Option (List Ind × List Ev × List GenRecord) :=
  match runFrom ext popSize (gens - 1) 1 (initialGen ext popSize).1 with
  | none => none
  | some rest =>
    some (rest.1,
      (initialGen ext popSize).2.1 ++ rest.2.1,
      (initialGen ext popSize).2.2 :: rest.2.2)

/-- Recognizer for the evaluation events of generation `gen`. -/
def isEvalOf (gen : Nat) : Ev → Bool
  | .eval g => g == gen
  | _ => false

/-- Number of `evaluate` calls of generation `gen` recorded in a trace. -/
def evalCount (gen : Nat) (evs : List Ev) : Nat :=
  (evs.filter (isEvalOf gen)).length

/-- `crossover_none`, registered as `toolbox.mate` in `main.py` but never
invoked by the driver.  Modelled from the spec: "Crossover is explicitly the
identity operation (no recombination occurs in this system)" —
`evolutionary/operators/crossover.py` is not among the provided sources. -/
def crossover_none (a b : Ind) : Ind × Ind := (a, b)

/-!  The simulated environment and `evolutionary/utils/utils.py`. -/

/-- The simulator environment object (`QuadHover` / `QuadLanding`).  The
class itself is not among the provided sources; its attribute set is
modelled from the spec and from the constructor call in `main.py`:
the seven disturbance attributes written by `randomize_env`, the stored
episode seed `seeds`, and the remaining constructor attributes
(`comp_delay_prob`, `thrust_bounds`, `settle`, `wind`, `h0`), which
`randomize_env` never touches.  `envId` is the Python object identity. -/
structure Env where
  delay : Int
  noise_std : Rat
  noise_p_std : Rat
  thrust_tc : Rat
  dt : Rat
  ds_act : Int
  jitter_prob : Rat
  seeds : Int
  comp_delay_prob : Rat
  thrust_bounds : Rat × Rat
  settle : Rat
  wind : Rat
  h0 : Rat
  envId : Nat
  deriving DecidableEq, Repr

/-- Modelled from the spec: `env.seed(s)` stores the episode seed that
"is later fed into episode-local simulation" (§4.1); the getter branch of
`getset_env` reads it back as the `seeds` attribute. -/
def Env.seed (env : Env) (s : Int) : Env := { env with seeds := s }

/-- Modelled from the spec: `env.checks()` "check[s] values again" — a
validation; the spec records no attribute effect of it. -/
def Env.checks (env : Env) : Env := env

/-- The `config["env"]` sub-dictionary: a half-open integer range for
`delay` and `ds act`, real ranges for `noise`, `noise p`, `thrust tc`,
`dt` and `jitter`, and the exclusive seed upper bound `seeds`. -/
structure EnvCfg where
  delay : Int × Int
  noise : Rat × Rat
  noiseP : Rat × Rat
  thrustTc : Rat × Rat
  dt : Rat × Rat
  dsAct : Int × Int
  jitter : Rat × Rat
  seeds : Int
  deriving DecidableEq, Repr

/-- The process-wide numpy random source, determinized: call number `k`
reads entry `k` of the integer or real entropy stream. -/
structure NpRandom where
  ints : Nat → Int
  reals : Nat → Rat

/-- `np.random.randint(lo, hi)`: a uniform integer from `[lo, hi)`,
determinized by mapping the entropy value into the range. -/
def npRandint (lo hi e : Int) : Int :=
  if lo < hi then lo + e % (hi - lo) else lo

/-- `np.random.uniform(lo, hi)`: a uniform real from `[lo, hi)`,
determinized by mapping the fractional part of the entropy value into the
range. -/
def npUniform (lo hi e : Rat) : Rat :=
  lo + Int.fract e * (hi - lo)

/-- `randomize_env(env, config)` from `evolutionary/utils/utils.py`:
writes `delay`, `noise_std`, `noise_p_std`, `thrust_tc`, `dt`, `ds_act`,
`jitter_prob` from fresh draws (calls 0–6 of the process-wide source),
calls `env.seed(np.random.randint(config["env"]["seeds"]))` (call 7),
calls `env.checks()`, and returns the same environment object. -/
def randomize_env (env : Env) (config : EnvCfg) (s : NpRandom) : Env :=
  let env := { env with delay := npRandint config.delay.1 config.delay.2 (s.ints 0) }
  let env := { env with noise_std := npUniform config.noise.1 config.noise.2 (s.reals 1) }
  let env := { env with noise_p_std := npUniform config.noiseP.1 config.noiseP.2 (s.reals 2) }
  let env := { env with thrust_tc := npUniform config.thrustTc.1 config.thrustTc.2 (s.reals 3) }
  let env := { env with dt := npUniform config.dt.1 config.dt.2 (s.reals 4) }
  let env := { env with ds_act := npRandint config.dsAct.1 config.dsAct.2 (s.ints 5) }
  let env := { env with jitter_prob := npUniform config.jitter.1 config.jitter.2 (s.reals 6) }
  let env := env.seed (npRandint 0 config.seeds (s.ints 7))
  env.checks

/-- The dictionary produced by the getter branch of `getset_env`. -/
structure GsCfg where
  delay : Int
  noise : Rat
  noiseP : Rat
  thrustTc : Rat
  dt : Rat
  dsAct : Int
  jitter : Rat
  seeds : Int
  deriving DecidableEq, Repr

/-- `getset_env(env, config=None)` from `evolutionary/utils/utils.py`:
with a config it writes the seven attributes, calls `env.seed`, and returns
the environment (`Sum.inl`); without one it returns the dictionary of the
current values (`Sum.inr`), reading the `seeds` attribute for the seed. -/
def getset_env (env : Env) (config : Option GsCfg) : Env ⊕ GsCfg :=
  match config with
  | some c =>
    Sum.inl
      (({ env with
          delay := c.delay
          noise_std := c.noise
          noise_p_std := c.noiseP
          thrust_tc := c.thrustTc
          dt := c.dt
          ds_act := c.dsAct
          jitter_prob := c.jitter }).seed c.seeds)
  | none =>
    Sum.inr
      { delay := env.delay
        noise := env.noise_std
        noiseP := env.noise_p_std
        thrustTc := env.thrust_tc
        dt := env.dt
        dsAct := env.ds_act
        jitter := env.jitter_prob
        seeds := env.seeds }

/-!  Configuration dispatch at the top of `main` (lines 40–60 of
`main.py`). -/

/-- The slice of the YAML configuration that the dispatch reads. -/
structure Config where
  network : String
  scenario : String
  deriving DecidableEq, Repr

/-- The resolved network constructor. -/
inductive NetKind where
  | ann
  | snn
  deriving DecidableEq, Repr

/-- The resolved scenario (environment class, evaluator and objectives). -/
inductive ScenKind where
  | hover
  | landing
  deriving DecidableEq, Repr

/-- Work stages that follow the dispatch in `main`: environment
construction (line 63), population initialization (line 109), and the
evaluation of the population (line 113 onward). -/
inductive SetupEv where
  | envConstruct
  | popInit
  | evalRun
  deriving DecidableEq, Repr

/-- Lines 41–46 of `main.py`: network dispatch;
`raise KeyError("Not a valid network key!")` otherwise. -/
def selectNetwork (cfg : Config) : Except String NetKind :=
  if cfg.network = "ANN" then Except.ok NetKind.ann
  else if cfg.network = "SNN" then Except.ok NetKind.snn
  else Except.error "Not a valid network key!"

/-- Lines 49–60 of `main.py`: scenario dispatch;
`raise KeyError("Not a valid scenario key!")` otherwise. -/
def selectScenario (cfg : Config) : Except String ScenKind :=
  if cfg.scenario = "hover" then Except.ok ScenKind.hover
  else if cfg.scenario = "landing" then Except.ok ScenKind.landing
  else Except.error "Not a valid scenario key!"

/-- The head of `main` in source order: network dispatch first, scenario
dispatch second, and only when both succeed does the driver proceed to the
work stages (environment construction, population initialization,
evaluation), listed here in their source order.  An error return carries no
work stage: nothing after the failing check is reached. -/
def mainSetup (cfg : Config) :
    Except String (NetKind × ScenKind × List SetupEv) :=
  match selectNetwork cfg with
  | Except.error e => Except.error e
  | Except.ok net =>
    match selectScenario cfg with
    | Except.error e => Except.error e
    | Except.ok scn =>
      Except.ok (net, scn,
        [SetupEv.envConstruct, SetupEv.popInit, SetupEv.evalRun])

/-!  Concrete instances used to evaluate the model on closed inputs. -/

/-- Trivial aggregators (spec-conformant instances of the abstract numpy
statistics). -/
def aggsC : Aggs :=
  { avgF := fun _ => 0
    stdF := fun _ => 0
    minF := fun _ => 0
    maxF := fun _ => 0
    medF := fun _ => 0 }

/-- A concrete, executable instance of the external collaborators.  With a
constant evaluator all fitness vectors are equal, so no individual
dominates another and the single front `[pop]` is the spec-conformant
front decomposition; `take k` realizes both selectors. -/
def extC : Ext :=
  { initG := fun i => Int.ofNat i
    fronts := fun pop => if pop.isEmpty then [] else [pop]
    tournDCD := fun l k => l.take k
    nsga2 := fun l k => l.take k
    mutateG := fun g => g + 1
    evalG := fun _ _ _ => [0, 0, 0]
    rng := fun _ _ => 0
    aggs := aggsC }

/-- Small concrete individuals. -/
def ind0 : Ind := { genome := 0, fitness := [] }

def ind1 : Ind := { genome := 1, fitness := [] }

def ind2 : Ind := { genome := 2, fitness := [] }

def ind3 : Ind := { genome := 3, fitness := [] }

def ind4 : Ind := { genome := 4, fitness := [] }

def ind5 : Ind := { genome := 5, fitness := [] }

def ind6 : Ind := { genome := 6, fitness := [] }

def ind7 : Ind := { genome := 7, fitness := [] }

def ind8 : Ind := { genome := 8, fitness := [] }

/-- The population produced by generation 0 under `extC` with
`pop size = 2`. -/
def popC : List Ind :=
  [{ genome := 0, fitness := [0, 0, 0] }, { genome := 1, fitness := [0, 0, 0] }]

/-- The logbook record of generation 1 of the concrete run. -/
def recC : GenRecord :=
  { gen := 1
    evals := 4
    avg := [0, 0, 0]
    std := [0, 0, 0]
    min := [0, 0, 0]
    max := [0, 0, 0]
    median := [0, 0, 0] }

/-- The result of `evolveStep extC 2 1 popC`. -/
def resC : List Ind × List Ev × GenRecord :=
  (popC,
   [Ev.mut 1, Ev.mut 1, Ev.eval 1, Ev.eval 1, Ev.eval 1, Ev.eval 1, Ev.arch 1],
   recC)

/-- A concrete environment. -/
def envC : Env :=
  { delay := 1
    noise_std := 2
    noise_p_std := 3
    thrust_tc := 4
    dt := 5
    ds_act := 1
    jitter_prob := 6
    seeds := 7
    comp_delay_prob := 8
    thrust_bounds := (0, 1)
    settle := 1
    wind := 0
    h0 := 5
    envId := 42 }

/-- A second concrete environment, everywhere different from `envC`. -/
def envC2 : Env :=
  { delay := 9
    noise_std := 9
    noise_p_std := 9
    thrust_tc := 9
    dt := 9
    ds_act := 9
    jitter_prob := 9
    seeds := 9
    comp_delay_prob := 9
    thrust_bounds := (9, 9)
    settle := 9
    wind := 9
    h0 := 9
    envId := 7 }

/-- The configuration dictionary read off `envC` by the getter branch of
`getset_env`. -/
def gsC : GsCfg :=
  { delay := 1
    noise := 2
    noiseP := 3
    thrustTc := 4
    dt := 5
    dsAct := 1
    jitter := 6
    seeds := 7 }

/-- `envC2` after the setter branch of `getset_env` wrote `gsC` into it. -/
def envC2x : Env :=
  { delay := 1
    noise_std := 2
    noise_p_std := 3
    thrust_tc := 4
    dt := 5
    ds_act := 1
    jitter_prob := 6
    seeds := 7
    comp_delay_prob := 9
    thrust_bounds := (9, 9)
    settle := 9
    wind := 9
    h0 := 9
    envId := 7 }

/-- A concrete disturbance-range configuration with valid ranges. -/
def envCfgC : EnvCfg :=
  { delay := (0, 3)
    noise := (0, 1)
    noiseP := (0, 1)
    thrustTc := (1, 3)
    dt := (1, 2)
    dsAct := (0, 2)
    jitter := (0, 1)
    seeds := 100 }

/-- A concrete entropy source for the numpy model. -/
def npC : NpRandom :=
  { ints := fun k => Int.ofNat (k + 5)
    reals := fun k => (Int.ofNat k : Rat) }

/-- A configuration with an unknown network key. -/
def cfgBadNet : Config := { network := "CNN", scenario := "hover" }

/-!  Helper lemmas. -/

theorem evalPop_length (ext : Ext) (gen : Nat) :
    ∀ (base : Nat) (l : List Ind), (evalPop ext gen base l).length = l.length
  | _, [] => rfl
  | base, _ :: rest => by
    simp [evalPop, evalPop_length ext gen (base + 1) rest]

theorem length_eraseIdx_lt :
    ∀ (l : List α) (i : Nat), i < l.length →
      (l.eraseIdx i).length = l.length - 1
  | [], i, h => by simp at h
  | _ :: _, 0, _ => by simp [List.eraseIdx]
  | _ :: xs, i + 1, h => by
    have hx : i < xs.length := by simpa using h
    simp only [List.eraseIdx, List.length_cons]
    rw [length_eraseIdx_lt xs i hx]
    omega

theorem mem_of_mem_eraseIdx (l : List α) (i : Nat) (x : α)
    (h : x ∈ l.eraseIdx i) : x ∈ l :=
  (List.eraseIdx_sublist l i).subset h

theorem getD_mem_cons :
    ∀ (l : List α) (i : Nat) (d : α), l.getD i d ∈ d :: l
  | [], i, d => by simp [List.getD]
  | x :: xs, 0, d => by simp
  | x :: xs, i + 1, d => by
    have h := getD_mem_cons xs i d
    have hstep : (x :: xs).getD (i + 1) d = xs.getD i d := rfl
    rw [hstep]
    rcases List.mem_cons.mp h with h | h
    · exact List.mem_cons.mpr (Or.inl h)
    · exact List.mem_cons.mpr (Or.inr (List.mem_cons.mpr (Or.inr h)))

theorem pySample_eq_none_iff :
    ∀ (k : Nat) (l : List α) (r : Nat → Nat),
      pySample l k r = none ↔ l.length < k := by
  intro k
  induction k with
  | zero => intro l r; simp [pySample]
  | succ k ih =>
    intro l r
    cases l with
    | nil => simp [pySample]
    | cons x xs =>
      have hidx : r 0 % (x :: xs).length < (x :: xs).length :=
        Nat.mod_lt _ (by simp)
      have herase :
          ((x :: xs).eraseIdx (r 0 % (x :: xs).length)).length =
            (x :: xs).length - 1 :=
        length_eraseIdx_lt _ _ hidx
      have hrec := ih ((x :: xs).eraseIdx (r 0 % (x :: xs).length))
        (fun t => r (t + 1))
      simp only [pySample]
      cases hcase : pySample ((x :: xs).eraseIdx (r 0 % (x :: xs).length)) k
          (fun t => r (t + 1)) with
      | none =>
        have hk := hrec.mp hcase
        rw [herase] at hk
        simp only [List.length_cons] at hk
        constructor
        · intro _
          simp only [List.length_cons]
          omega
        · intro _
          rfl
      | some rest =>
        have hk : ¬ ((x :: xs).eraseIdx (r 0 % (x :: xs).length)).length < k := by
          intro hcontra
          exact absurd (hrec.mpr hcontra) (by rw [hcase]; simp)
        rw [herase] at hk
        simp only [List.length_cons] at hk
        constructor
        · intro hcontra
          exact absurd hcontra (by simp)
        · intro hlen
          exfalso
          simp only [List.length_cons] at hlen
          omega

theorem pySample_some_spec :
    ∀ (k : Nat) (l res : List α) (r : Nat → Nat),
      pySample l k r = some res →
      res.length = k ∧ ∀ x ∈ res, x ∈ l := by
  intro k
  induction k with
  | zero =>
    intro l res r h
    simp [pySample] at h
    subst h
    simp
  | succ k ih =>
    intro l res r h
    cases l with
    | nil => simp [pySample] at h
    | cons x xs =>
      simp only [pySample] at h
      cases hrec : pySample ((x :: xs).eraseIdx (r 0 % (x :: xs).length)) k
          (fun t => r (t + 1)) with
      | none => rw [hrec] at h; exact absurd h (by simp)
      | some rest =>
        rw [hrec] at h
        simp only [Option.some.injEq] at h
        obtain ⟨hlen, hmem⟩ := ih _ rest _ hrec
        subst h
        refine ⟨by simp [hlen], ?_⟩
        intro y hy
        rcases List.mem_cons.mp hy with hy | hy
        · subst hy
          have hmm := getD_mem_cons (x :: xs) (r 0 % (x :: xs).length) x
          rcases List.mem_cons.mp hmm with h2 | h2
          · rw [h2]; exact List.mem_cons_self x xs
          · exact h2
        · exact mem_of_mem_eraseIdx _ _ _ (hmem y hy)

theorem evalCount_append (g : Nat) (a b : List Ev) :
    evalCount g (a ++ b) = evalCount g a + evalCount g b := by
  simp [evalCount, List.filter_append]

theorem evalCount_replicate (g n : Nat) (e : Ev) :
    evalCount g (List.replicate n e) = if isEvalOf g e then n else 0 := by
  induction n with
  | zero => simp [evalCount]
  | succ n ih =>
    rw [List.replicate_succ]
    simp only [evalCount, List.filter_cons] at ih ⊢
    by_cases h : isEvalOf g e
    · simp only [h, if_true, List.length_cons]
      rw [if_pos h] at ih
      omega
    · simp only [h, if_false] at ih ⊢
      simp only [Bool.false_eq_true, if_false]
      exact ih

theorem isEvalOf_eval_self (g : Nat) : isEvalOf g (Ev.eval g) = true := by
  simp [isEvalOf]

theorem isEvalOf_mut (g g2 : Nat) : isEvalOf g (Ev.mut g2) = false := rfl

theorem isEvalOf_arch (g g2 : Nat) : isEvalOf g (Ev.arch g2) = false := rfl

theorem npRandint_mem (lo hi e : Int) (h : lo < hi) :
    lo ≤ npRandint lo hi e ∧ npRandint lo hi e < hi := by
  unfold npRandint
  rw [if_pos h]
  have h0 : hi - lo ≠ 0 := by omega
  have h1 : (0 : Int) < hi - lo := by omega
  have h2 := Int.emod_nonneg e h0
  have h3 := Int.emod_lt_of_pos e h1
  omega

theorem npUniform_mem (lo hi e : Rat) (h : lo < hi) :
    lo ≤ npUniform lo hi e ∧ npUniform lo hi e < hi := by
  unfold npUniform
  have h0 : (0 : Rat) ≤ Int.fract e := Int.fract_nonneg e
  have h1 : Int.fract e < 1 := Int.fract_lt_one e
  have h2 : (0 : Rat) < hi - lo := by linarith
  constructor
  · nlinarith
  · nlinarith

theorem extC_nsga2_len (l : List Ind) (k : Nat) (hk : k ≤ l.length) :
    (extC.nsga2 l k).length = k := by
  show (l.take k).length = k
  rw [List.length_take]
  omega

/-!  Claim theorems. -/

/-- C2, counterexample.  The claim says the padding samples WITH
replacement from `selection`, which would succeed for any non-empty
`selection`.  The code calls `random.sample`, which samples WITHOUT
replacement: here `others` has length 1 (deficit 3) and `selection` holds
the single individual `ind1`, so with-replacement padding would return
`[ind1, ind1, ind1]`, but the code's `random.sample(selection, 3)` raises
`ValueError` (modelled as `none`). -/
theorem padOthers_with_replacement_cex :
    padOthers [ind0] [ind1] (fun _ => 0) = none := by decide

/-- C2, amended: when `len(others) % 4 ≠ 0`, the list is padded to the next
multiple of 4 by sampling WITHOUT replacement (`random.sample`) from
`selection`; this requires the deficit `4 - len(others) % 4` to be at most
`len(selection)`, and the padded-on elements are (not necessarily
distinct-valued, but distinct-position) members of `selection`. -/
theorem padOthers_without_replacement (others selection : List Ind)
    (r : Nat → Nat) (h4 : others.length % 4 ≠ 0)
    (hle : 4 - others.length % 4 ≤ selection.length) :
    ∃ extra,
      pySample selection (4 - others.length % 4) r = some extra ∧
      padOthers others selection r = some (others ++ extra) ∧
      extra.length = 4 - others.length % 4 ∧
      ∀ x ∈ extra, x ∈ selection := by
  rcases hs : pySample selection (4 - others.length % 4) r with _ | extra
  · exact absurd ((pySample_eq_none_iff _ _ _).mp hs) (by omega)
  · obtain ⟨hlen, hmem⟩ := pySample_some_spec _ _ _ _ hs
    exact ⟨extra, rfl, by simp [padOthers, h4, hs], hlen, hmem⟩

/-- C2 witness: a concrete deficit-3 padding drawn without replacement from
a 3-element `selection`. -/
theorem padOthers_without_replacement_witness :
    ∃ extra,
      pySample [ind6, ind7, ind8] (4 - ([ind5] : List Ind).length % 4)
          (fun _ => 0) = some extra ∧
      padOthers [ind5] [ind6, ind7, ind8] (fun _ => 0) =
        some ([ind5] ++ extra) ∧
      extra.length = 4 - ([ind5] : List Ind).length % 4 ∧
      ∀ x ∈ extra, x ∈ [ind6, ind7, ind8] :=
  padOthers_without_replacement [ind5] [ind6, ind7, ind8] (fun _ => 0)
    (by decide) (by decide)

/-- C5, counterexample.  The claim says padding succeeds for EVERY
non-multiple-of-4 `others` and EVERY non-empty `selection`.  Here `others`
has length 2 (deficit 2) and `selection` is the non-empty one-element list
`[ind4]`, yet `random.sample([ind4], 2)` raises `ValueError` (modelled as
`none`): the run aborts instead of padding. -/
theorem padOthers_total_cex :
    padOthers [ind2, ind3] [ind4] (fun _ => 0) = none := by decide

/-- C5, amended: a list whose length is already a multiple of 4 is left
unchanged; otherwise the padding succeeds exactly when the deficit
`4 - len(others) % 4` is at most `len(selection)` (non-emptiness alone is
not enough), and then the result's length is a multiple of 4 and at least
the original length; when the deficit exceeds `len(selection)` the
padding fails (`random.sample` raises `ValueError`). -/
theorem padOthers_spec (others selection : List Ind) (r : Nat → Nat) :
    (others.length % 4 = 0 → padOthers others selection r = some others) ∧
    (others.length % 4 ≠ 0 → 4 - others.length % 4 ≤ selection.length →
      ∃ res, padOthers others selection r = some res ∧
        res.length % 4 = 0 ∧ others.length ≤ res.length) ∧
    (others.length % 4 ≠ 0 → selection.length < 4 - others.length % 4 →
      padOthers others selection r = none) := by
  refine ⟨?_, ?_, ?_⟩
  · intro h0
    simp [padOthers, h0]
  · intro h4 hle
    obtain ⟨extra, -, hpad, hlen, -⟩ :=
      padOthers_without_replacement others selection r h4 hle
    refine ⟨others ++ extra, hpad, ?_, ?_⟩
    · rw [List.length_append, hlen]
      have := Nat.mod_lt others.length (show 0 < 4 by decide)
      omega
    · rw [List.length_append]
      omega
  · intro h4 hlt
    have hnone : pySample selection (4 - others.length % 4) r = none :=
      (pySample_eq_none_iff _ _ _).mpr hlt
    simp [padOthers, h4, hnone]

/-- C5 witness: a concrete deficit-3 padding that succeeds and yields a
multiple-of-4 length, via the amended theorem's success branch. -/
theorem padOthers_spec_witness :
    ∃ res, padOthers [ind0] [ind1, ind2, ind3] (fun _ => 0) = some res ∧
      res.length % 4 = 0 ∧ ([ind0] : List Ind).length ≤ res.length :=
  (padOthers_spec [ind0] [ind1, ind2, ind3] (fun _ => 0)).2.1
    (by decide) (by decide)

/-- C7: each call of `randomize_env` draws the eight disturbance fields
independently — field `i` is a function of exactly the `i`-th call of the
process-wide source (call slots 0–7) — with a uniform integer from the
half-open configured range for `delay` (communication delay steps) and
`ds_act` (actuation-delay steps), a uniform real from the configured range
for `noise_std`, `noise_p_std`, `thrust_tc`, `dt` and `jitter_prob`, and
the episode seed as a uniform integer from `[0, seeds)`. -/
theorem randomize_env_draws (env : Env) (config : EnvCfg) (s : NpRandom)
    (h1 : config.delay.1 < config.delay.2)
    (h2 : config.noise.1 < config.noise.2)
    (h3 : config.noiseP.1 < config.noiseP.2)
    (h4 : config.thrustTc.1 < config.thrustTc.2)
    (h5 : config.dt.1 < config.dt.2)
    (h6 : config.dsAct.1 < config.dsAct.2)
    (h7 : config.jitter.1 < config.jitter.2)
    (h8 : 0 < config.seeds) :
    ((randomize_env env config s).delay =
        npRandint config.delay.1 config.delay.2 (s.ints 0) ∧
      config.delay.1 ≤ (randomize_env env config s).delay ∧
      (randomize_env env config s).delay < config.delay.2) ∧
    ((randomize_env env config s).noise_std =
        npUniform config.noise.1 config.noise.2 (s.reals 1) ∧
      config.noise.1 ≤ (randomize_env env config s).noise_std ∧
      (randomize_env env config s).noise_std < config.noise.2) ∧
    ((randomize_env env config s).noise_p_std =
        npUniform config.noiseP.1 config.noiseP.2 (s.reals 2) ∧
      config.noiseP.1 ≤ (randomize_env env config s).noise_p_std ∧
      (randomize_env env config s).noise_p_std < config.noiseP.2) ∧
    ((randomize_env env config s).thrust_tc =
        npUniform config.thrustTc.1 config.thrustTc.2 (s.reals 3) ∧
      config.thrustTc.1 ≤ (randomize_env env config s).thrust_tc ∧
      (randomize_env env config s).thrust_tc < config.thrustTc.2) ∧
    ((randomize_env env config s).dt =
        npUniform config.dt.1 config.dt.2 (s.reals 4) ∧
      config.dt.1 ≤ (randomize_env env config s).dt ∧
      (randomize_env env config s).dt < config.dt.2) ∧
    ((randomize_env env config s).ds_act =
        npRandint config.dsAct.1 config.dsAct.2 (s.ints 5) ∧
      config.dsAct.1 ≤ (randomize_env env config s).ds_act ∧
      (randomize_env env config s).ds_act < config.dsAct.2) ∧
    ((randomize_env env config s).jitter_prob =
        npUniform config.jitter.1 config.jitter.2 (s.reals 6) ∧
      config.jitter.1 ≤ (randomize_env env config s).jitter_prob ∧
      (randomize_env env config s).jitter_prob < config.jitter.2) ∧
    ((randomize_env env config s).seeds =
        npRandint 0 config.seeds (s.ints 7) ∧
      0 ≤ (randomize_env env config s).seeds ∧
      (randomize_env env config s).seeds < config.seeds) := by
  have hd : (randomize_env env config s).delay =
      npRandint config.delay.1 config.delay.2 (s.ints 0) := by
    simp [randomize_env, Env.seed, Env.checks]
  have hn : (randomize_env env config s).noise_std =
      npUniform config.noise.1 config.noise.2 (s.reals 1) := by
    simp [randomize_env, Env.seed, Env.checks]
  have hp : (randomize_env env config s).noise_p_std =
      npUniform config.noiseP.1 config.noiseP.2 (s.reals 2) := by
    simp [randomize_env, Env.seed, Env.checks]
  have ht : (randomize_env env config s).thrust_tc =
      npUniform config.thrustTc.1 config.thrustTc.2 (s.reals 3) := by
    simp [randomize_env, Env.seed, Env.checks]
  have hdt : (randomize_env env config s).dt =
      npUniform config.dt.1 config.dt.2 (s.reals 4) := by
    simp [randomize_env, Env.seed, Env.checks]
  have hds : (randomize_env env config s).ds_act =
      npRandint config.dsAct.1 config.dsAct.2 (s.ints 5) := by
    simp [randomize_env, Env.seed, Env.checks]
  have hj : (randomize_env env config s).jitter_prob =
      npUniform config.jitter.1 config.jitter.2 (s.reals 6) := by
    simp [randomize_env, Env.seed, Env.checks]
  have hsd : (randomize_env env config s).seeds =
      npRandint 0 config.seeds (s.ints 7) := by
    simp [randomize_env, Env.seed, Env.checks]
  refine ⟨⟨hd, ?_, ?_⟩, ⟨hn, ?_, ?_⟩, ⟨hp, ?_, ?_⟩, ⟨ht, ?_, ?_⟩,
    ⟨hdt, ?_, ?_⟩, ⟨hds, ?_, ?_⟩, ⟨hj, ?_, ?_⟩, ⟨hsd, ?_, ?_⟩⟩
  · rw [hd]; exact (npRandint_mem _ _ _ h1).1
  · rw [hd]; exact (npRandint_mem _ _ _ h1).2
  · rw [hn]; exact (npUniform_mem _ _ _ h2).1
  · rw [hn]; exact (npUniform_mem _ _ _ h2).2
  · rw [hp]; exact (npUniform_mem _ _ _ h3).1
  · rw [hp]; exact (npUniform_mem _ _ _ h3).2
  · rw [ht]; exact (npUniform_mem _ _ _ h4).1
  · rw [ht]; exact (npUniform_mem _ _ _ h4).2
  · rw [hdt]; exact (npUniform_mem _ _ _ h5).1
  · rw [hdt]; exact (npUniform_mem _ _ _ h5).2
  · rw [hds]; exact (npRandint_mem _ _ _ h6).1
  · rw [hds]; exact (npRandint_mem _ _ _ h6).2
  · rw [hj]; exact (npUniform_mem _ _ _ h7).1
  · rw [hj]; exact (npUniform_mem _ _ _ h7).2
  · rw [hsd]; exact (npRandint_mem _ _ _ h8).1
  · rw [hsd]; exact (npRandint_mem _ _ _ h8).2

/-- C7 witness: the delay draw of a concrete call of `randomize_env`. -/
theorem randomize_env_draws_witness :
    (randomize_env envC envCfgC npC).delay =
        npRandint envCfgC.delay.1 envCfgC.delay.2 (npC.ints 0) ∧
      envCfgC.delay.1 ≤ (randomize_env envC envCfgC npC).delay ∧
      (randomize_env envC envCfgC npC).delay < envCfgC.delay.2 :=
  (randomize_env_draws envC envCfgC npC (by decide) (by decide) (by decide)
    (by decide) (by decide) (by decide) (by decide) (by decide)).1

/-- C9: `getset_env` get-then-set round-trips the seven non-seed
disturbance fields: reading `env`'s configuration and writing it into
`env2` sets `env2`'s `delay`, `noise_std`, `noise_p_std`, `thrust_tc`,
`dt`, `ds_act` and `jitter_prob` to exactly `env`'s values. -/
theorem getset_env_roundtrip (env env2 : Env) (c : GsCfg) (e2 : Env)
    (hget : getset_env env none = Sum.inr c)
    (hset : getset_env env2 (some c) = Sum.inl e2) :
    e2.delay = env.delay ∧ e2.noise_std = env.noise_std ∧
    e2.noise_p_std = env.noise_p_std ∧ e2.thrust_tc = env.thrust_tc ∧
    e2.dt = env.dt ∧ e2.ds_act = env.ds_act ∧
    e2.jitter_prob = env.jitter_prob := by
  simp only [getset_env, Sum.inr.injEq] at hget
  simp only [getset_env, Sum.inl.injEq] at hset
  subst hget
  subst hset
  simp [Env.seed]

/-- C9 witness: the round trip evaluated on the two concrete environments
`envC` and `envC2`. -/
theorem getset_env_roundtrip_witness :
    envC2x.delay = envC.delay ∧ envC2x.noise_std = envC.noise_std ∧
    envC2x.noise_p_std = envC.noise_p_std ∧
    envC2x.thrust_tc = envC.thrust_tc ∧ envC2x.dt = envC.dt ∧
    envC2x.ds_act = envC.ds_act ∧ envC2x.jitter_prob = envC.jitter_prob :=
  getset_env_roundtrip envC envC2 gsC envC2x (by decide) (by decide)

/-- C10: `randomize_env` returns the very same environment object
(`envId` is the Python object identity, preserved by every in-place
attribute write), and apart from the seven disturbance attributes, the
seed stored by `env.seed`, and whatever `env.checks` does, every other
attribute of the environment is left unchanged. -/
theorem randomize_env_frame (env : Env) (config : EnvCfg) (s : NpRandom) :
    (randomize_env env config s).envId = env.envId ∧
    (randomize_env env config s).comp_delay_prob = env.comp_delay_prob ∧
    (randomize_env env config s).thrust_bounds = env.thrust_bounds ∧
    (randomize_env env config s).settle = env.settle ∧
    (randomize_env env config s).wind = env.wind ∧
    (randomize_env env config s).h0 = env.h0 := by
  refine ⟨?_, ?_, ?_, ?_, ?_, ?_⟩ <;>
    simp [randomize_env, Env.seed, Env.checks]

/-- C6: a configuration naming an unknown network type or an unknown
scenario makes `main` raise a `KeyError` in the dispatch at its very top —
before the environment is constructed, the population is initialized, or
any evaluation runs.  In the model an error return of `mainSetup` carries
no work stage at all (the stage list exists only in the `ok` result), so
no environment-construction, population-initialization or evaluation work
is reached. -/
theorem config_error_before_work (cfg : Config)
    (h : cfg.network ∉ (["ANN", "SNN"] : List String) ∨
      cfg.scenario ∉ (["hover", "landing"] : List String)) :
    (mainSetup cfg = Except.error "Not a valid network key!" ∨
      mainSetup cfg = Except.error "Not a valid scenario key!") ∧
    ∀ out, mainSetup cfg ≠ Except.ok out := by
  have hmain : mainSetup cfg = Except.error "Not a valid network key!" ∨
      mainSetup cfg = Except.error "Not a valid scenario key!" := by
    rcases h with h | h
    · have hn1 : ¬ cfg.network = "ANN" := by
        intro hc; exact h (by simp [hc])
      have hn2 : ¬ cfg.network = "SNN" := by
        intro hc; exact h (by simp [hc])
      left
      simp [mainSetup, selectNetwork, hn1, hn2]
    · have hs1 : ¬ cfg.scenario = "hover" := by
        intro hc; exact h (by simp [hc])
      have hs2 : ¬ cfg.scenario = "landing" := by
        intro hc; exact h (by simp [hc])
      by_cases hA : cfg.network = "ANN"
      · right
        simp [mainSetup, selectNetwork, selectScenario, hA, hs1, hs2]
      · by_cases hS : cfg.network = "SNN"
        · right
          simp [mainSetup, selectNetwork, selectScenario, hA, hS, hs1, hs2]
        · left
          simp [mainSetup, selectNetwork, hA, hS]
  refine ⟨hmain, ?_⟩
  intro out hok
  rcases hmain with hm | hm <;> rw [hm] at hok <;> exact absurd hok (by simp)

/-- C6 witness: the concrete configuration with network key `"CNN"` is
rejected by the dispatch. -/
theorem config_error_before_work_witness :
    mainSetup cfgBadNet = Except.error "Not a valid network key!" ∨
      mainSetup cfgBadNet = Except.error "Not a valid scenario key!" :=
  (config_error_before_work cfgBadNet (Or.inl (by decide))).1

theorem evolveStep_some (ext : Ext) (popSize gen : Nat) (pop : List Ind)
    (res : List Ind × List Ev × GenRecord)
    (h : evolveStep ext popSize gen pop = some res) :
    ∃ sel, evolveParts ext gen pop = some sel ∧
      res = (stepNewPop ext popSize gen pop sel,
        stepTrace ext gen pop sel, stepRec ext popSize gen pop sel) := by
  unfold evolveStep at h
  cases hsel : evolveParts ext gen pop with
  | none => rw [hsel] at h; exact absurd h (by simp)
  | some sel =>
    rw [hsel] at h
    simp only [Option.some.injEq] at h
    exact ⟨sel, rfl, h.symm⟩

theorem objCols_length (pop : List Ind) : (objCols pop).length = 3 := by
  simp [objCols]

theorem initialGen_popEval_length (ext : Ext) (popSize : Nat) :
    (evalPop ext 0 0 ((List.range popSize).map
      (fun i => ({ genome := ext.initG i, fitness := [] } : Ind)))).length =
      popSize := by
  rw [evalPop_length]
  simp

/-- C1, counterexample.  The claim says no individual is mutated before its
fitness for the current generation (the fresh draw) is assigned.  In the
concrete two-generation run below, the whole-run event trace is
`[eval 0, eval 0, arch 0, mut 1, mut 1, eval 1, eval 1, eval 1, eval 1, arch 1]`:
position 3 is a mutation of generation 1 and position 5 is a generation-1
fitness assignment, so offspring are mutated (from clones selected on the
previous generation's fitness) strictly BEFORE the current generation's
evaluations run. -/
theorem mutation_before_eval_cex :
    (runDriver extC 2 2).map (fun o => (o.2.1[3]?, o.2.1[5]?)) =
      some (some (Ev.mut 1), some (Ev.eval 1)) := by decide

/-- C1, amended: in every generation of the evolutionary loop the
hall-of-fame (archive) update happens strictly after all of that
generation's fitness evaluations complete, and likewise at generation 0;
mutation, however, happens strictly BEFORE the generation's fresh
evaluations: every loop generation's trace consists of the mutation events,
then all evaluation events, then the archive update. -/
theorem barrier_archive_after_evals (ext : Ext) (popSize gen : Nat)
    (pop : List Ind) (res : List Ind × List Ev × GenRecord)
    (h : evolveStep ext popSize gen pop = some res) :
    (∃ m p, res.2.1 =
      List.replicate m (Ev.mut gen) ++ List.replicate p (Ev.eval gen) ++
        [Ev.arch gen]) ∧
    (initialGen ext popSize).2.1 =
      List.replicate popSize (Ev.eval 0) ++ [Ev.arch 0] := by
  obtain ⟨sel, hsel, hres⟩ := evolveStep_some ext popSize gen pop res h
  constructor
  · rw [hres]
    exact ⟨_, _, rfl⟩
  · simp only [initialGen]
    rw [initialGen_popEval_length]

/-- C1 witness: the amended barrier property on the concrete loop
generation computed by `evolveStep extC 2 1 popC`. -/
theorem barrier_archive_after_evals_witness :
    (∃ m p, resC.2.1 =
      List.replicate m (Ev.mut 1) ++ List.replicate p (Ev.eval 1) ++
        [Ev.arch 1]) ∧
    (initialGen extC 2).2.1 =
      List.replicate 2 (Ev.eval 0) ++ [Ev.arch 0] :=
  barrier_archive_after_evals extC 2 1 popC resC (by decide)

/-- C3: the population-size invariant.  Under the NSGA-II selector
contract (`select(l, k)` returns exactly `k` individuals whenever
`k ≤ len(l)`; DEAP's `selNSGA2` is not repository source), the end state of
generation 0 has exactly `pop size` individuals, and every completed loop
generation maps a `pop size` population to a `pop size` population — so the
size fixed at configuration time is invariant across every generation's end
state. -/
theorem popsize_invariant (ext : Ext) (popSize : Nat)
    (Hnsga : ∀ (l : List Ind) (k : Nat), k ≤ l.length →
      (ext.nsga2 l k).length = k) :
    (initialGen ext popSize).1.length = popSize ∧
    ∀ (gen : Nat) (pop : List Ind) (res : List Ind × List Ev × GenRecord),
      pop.length = popSize → evolveStep ext popSize gen pop = some res →
      res.1.length = popSize := by
  constructor
  · simp only [initialGen]
    rw [Hnsga _ _ le_rfl]
    exact initialGen_popEval_length ext popSize
  · intro gen pop res hpop hstep
    obtain ⟨sel, hsel, hres⟩ := evolveStep_some ext popSize gen pop res hstep
    rw [hres]
    show (stepNewPop ext popSize gen pop sel).length = popSize
    unfold stepNewPop
    have hle : popSize ≤
        (evalPop ext gen 0 pop ++
          evalPop ext gen pop.length
            (buildOffspring ext pop.length sel)).length := by
      rw [List.length_append, evalPop_length, evalPop_length, hpop]
      omega
    exact Hnsga _ _ hle

/-- C3 witness: the invariant on the concrete run (`pop size = 2`). -/
theorem popsize_invariant_witness :
    (initialGen extC 2).1.length = 2 ∧ resC.1.length = 2 := by
  have h := popsize_invariant extC 2 extC_nsga2_len
  exact ⟨h.1, h.2 1 popC resC (by decide) (by decide)⟩

/-- C4: in every loop generation, the offspring list is exactly the first
`len(population)` individuals of the (post-tournament) `selection`, each
cloned and then mutated — one parent per offspring, no recombination: the
offspring list clips `selection` via `take`, its `i`-th member is
`mutate(clone(selection[i]))`, and the generation's event trace contains no
crossover application at all (`toolbox.mate` is registered but never
called; `crossover_none` is the identity in any case). -/
theorem offspring_clone_mutate (ext : Ext) (popSize gen : Nat)
    (pop sel : List Ind) (res : List Ind × List Ev × GenRecord)
    (hsel : evolveParts ext gen pop = some sel)
    (hstep : evolveStep ext popSize gen pop = some res) :
    (buildOffspring ext pop.length sel).length = min pop.length sel.length ∧
    (∀ (i : Nat) (hi : i < (buildOffspring ext pop.length sel).length)
        (hj : i < sel.length),
      (buildOffspring ext pop.length sel).get ⟨i, hi⟩ =
        mutateInd ext (cloneInd (sel.get ⟨i, hj⟩))) ∧
    (∀ g, Ev.cross g ∉ res.2.1) ∧
    ∀ a b, crossover_none a b = (a, b) := by
  refine ⟨?_, ?_, ?_, fun a b => rfl⟩
  · simp [buildOffspring, List.length_take]
  · intro i hi hj
    simp [buildOffspring, List.get_eq_getElem, List.getElem_map,
      List.getElem_take]
  · intro g
    obtain ⟨sel2, hsel2, hres⟩ := evolveStep_some ext popSize gen pop res hstep
    rw [hres]
    show Ev.cross g ∉ stepTrace ext gen pop sel2
    unfold stepTrace
    intro hmem
    rcases List.mem_append.mp hmem with hmem | hmem
    · rcases List.mem_append.mp hmem with hmem | hmem
      · exact absurd (List.eq_of_mem_replicate hmem) (by simp)
      · exact absurd (List.eq_of_mem_replicate hmem) (by simp)
    · simp at hmem

/-- C4 witness: the concrete loop generation's offspring and trace. -/
theorem offspring_clone_mutate_witness :
    (buildOffspring extC popC.length popC).length =
      min popC.length popC.length ∧
    (buildOffspring extC popC.length popC).get ⟨0, by decide⟩ =
      mutateInd extC (cloneInd (popC.get ⟨0, by decide⟩)) ∧
    Ev.cross 1 ∉ resC.2.1 ∧
    crossover_none ind0 ind1 = (ind0, ind1) := by
  have h := offspring_clone_mutate extC 2 1 popC popC resC
    (by decide) (by decide)
  exact ⟨h.1, h.2.1 0 (by decide) (by decide), h.2.2.1 1, h.2.2.2 ind0 ind1⟩

/-- C8: every generation, including generation 0, emits exactly one
logbook record; its fields are exactly `gen`, `evals` and the five
per-objective (length-3) statistics vectors `avg`, `std`, `min`, `max`,
`median` (the `GenRecord` structure), and — under the NSGA-II selector
contract — its `evals` field equals the number of `evaluate` calls
performed in that generation. -/
theorem report_fields_eval_count (ext : Ext) (popSize : Nat)
    (Hnsga : ∀ (l : List Ind) (k : Nat), k ≤ l.length →
      (ext.nsga2 l k).length = k) :
    ((initialGen ext popSize).2.2.gen = 0 ∧
      (initialGen ext popSize).2.2.evals =
        evalCount 0 (initialGen ext popSize).2.1 ∧
      (initialGen ext popSize).2.2.avg.length = 3 ∧
      (initialGen ext popSize).2.2.std.length = 3 ∧
      (initialGen ext popSize).2.2.min.length = 3 ∧
      (initialGen ext popSize).2.2.max.length = 3 ∧
      (initialGen ext popSize).2.2.median.length = 3) ∧
    ∀ (gen : Nat) (pop : List Ind) (res : List Ind × List Ev × GenRecord),
      pop.length = popSize → evolveStep ext popSize gen pop = some res →
      res.2.2.gen = gen ∧
      res.2.2.evals = evalCount gen res.2.1 ∧
      res.2.2.avg.length = 3 ∧ res.2.2.std.length = 3 ∧
      res.2.2.min.length = 3 ∧ res.2.2.max.length = 3 ∧
      res.2.2.median.length = 3 := by
  have hpe := initialGen_popEval_length ext popSize
  constructor
  · simp only [initialGen]
    refine ⟨rfl, ?_, ?_, ?_, ?_, ?_, ?_⟩
    · show (ext.nsga2 _ _).length = evalCount 0 _
      rw [Hnsga _ _ le_rfl, hpe, evalCount_append, evalCount_replicate]
      simp [evalCount, isEvalOf]
    all_goals
      simp [compileStats, objCols_length]
  · intro gen pop res hpop hstep
    obtain ⟨sel, hsel, hres⟩ := evolveStep_some ext popSize gen pop res hstep
    rw [hres]
    have hnew : (stepNewPop ext popSize gen pop sel).length = popSize := by
      unfold stepNewPop
      refine Hnsga _ _ ?_
      rw [List.length_append, evalPop_length, evalPop_length, hpop]
      omega
    refine ⟨rfl, ?_, ?_, ?_, ?_, ?_, ?_⟩
    · show (stepRec ext popSize gen pop sel).evals =
        evalCount gen (stepTrace ext gen pop sel)
      unfold stepRec stepTrace
      rw [evalCount_append, evalCount_append, evalCount_replicate,
        evalCount_replicate]
      simp only [compileStats]
      rw [evalPop_length, hnew, hpop]
      simp [evalCount, isEvalOf]
      omega
    all_goals
      simp [stepRec, compileStats, objCols_length]

/-- C8 witness: generation 0 and the concrete loop generation of the
`extC` run. -/
theorem report_fields_eval_count_witness :
    (initialGen extC 2).2.2.gen = 0 ∧
    (initialGen extC 2).2.2.evals = evalCount 0 (initialGen extC 2).2.1 ∧
    resC.2.2.gen = 1 ∧ resC.2.2.evals = evalCount 1 resC.2.1 := by
  have h := report_fields_eval_count extC 2 extC_nsga2_len
  have h2 := h.2 1 popC resC (by decide) (by decide)
  exact ⟨h.1.1, h.1.2.1, h2.1, h2.2.1⟩

end Evolutionary
